import Mathlib

/-!
Verification of the form-processing pipeline (form_processor.py).

The Python source is shallowly embedded: the regex searches of
extract_fields are implemented as a specialised backtracking matcher with
Python re semantics (leftmost match, greedy quantifiers with
backtracking, ASCII case folding for re.IGNORECASE); the Python dict of
extracted fields becomes a structure of four optional strings; floats
produced by calculate_confidence become rationals (every value the code
can produce is an exact multiple of 25, so rounding is exact and the
float model is faithful); the filesystem side effects of process_file
become an explicit list of events.  The third-party dateutil parser is
modelled on the token shapes the DOB capture class can produce (purely
numeric slash- or hyphen-separated dates with a four-digit year, using
the month-first default of dateutil); token shapes outside that fragment
are modelled as parse failures, matching dateutil on every concrete
token evaluated in this development.
-/

/-- REQUIRED_FIELDS of form_processor.py (line 25). -/
def REQUIRED_FIELDS : List String :=
  ["patient_name", "date_of_birth", "policy_number", "provider_name"]

/-- The Python dict produced by extract_fields.  Its key set is fixed
(the four required field names), so it is embedded as a structure of
four optional values; a key absent from the dict is a none field. -/
structure ExtractedFields where
  patient_name : Option String
  date_of_birth : Option String
  policy_number : Option String
  provider_name : Option String
deriving DecidableEq

/-- Dict lookup by key string, restricted to the fixed key set. -/
def ExtractedFields.get (fs : ExtractedFields) (k : String) : Option String :=
  if k == "patient_name" then fs.patient_name
  else if k == "date_of_birth" then fs.date_of_birth
  else if k == "policy_number" then fs.policy_number
  else if k == "provider_name" then fs.provider_name
  else none

/-- The Python truthiness test used by both calculate_confidence
(line 97: f in fields and fields[f]) and validate_fields (line 107,
negated): the key is present and its value is a non-empty string. -/
def field_filled (fs : ExtractedFields) (f : String) : Bool :=
  match fs.get f with
  | some v => !(v == "")
  | none => false

/-! ## Regex matcher

The four patterns of extract_fields (lines 70-73) all have the shape
LABELS [:\-]? \s* (CLASS+) with re.IGNORECASE, where LABELS is an
alternation of literal label phrases and CLASS is a one-character
class.  The matcher below implements Python re.search semantics for
exactly this shape: the match position is the leftmost position where
some alternative followed by the rest of the pattern matches,
alternatives are tried left to right, the optional separator and the
whitespace run are greedy and backtrack, and the captured group is the
maximal run of CLASS characters at the chosen position. -/

/-- ASCII model of the Python str whitespace class backslash-s. -/
def isPySpace (c : Char) : Bool :=
  c == ' ' || c == '\t' || c == '\n' || c == '\r' || c == '\x0b' || c == '\x0c'

/-- Python str.strip(): remove leading and trailing whitespace. -/
def pyStrip (cs : List Char) : List Char :=
  ((cs.dropWhile isPySpace).reverse.dropWhile isPySpace).reverse

/-- The regex dot: any character except a newline. -/
def dotCls (c : Char) : Bool := c != '\n'

/-- ASCII model of the backslash-w class, plus slash and hyphen:
the DOB capture class of line 71. -/
def dobCls (c : Char) : Bool :=
  c.isAlphanum || c == '_' || c == '/' || c == '-'

/-- The policy-number capture class of line 72. -/
def policyCls (c : Char) : Bool := c.isAlphanum || c == '-'

/-- Match a literal label case-insensitively (ASCII folding, modelling
re.IGNORECASE) at the head of the text; on success return the rest. -/
def matchLabelCI : List Char → List Char → Option (List Char)
  | [], cs => some cs
  | _ :: _, [] => none
  | p :: ps, c :: cs =>
    if p.toLower == c.toLower then matchLabelCI ps cs else none

/-- Greedy backslash-s-star followed by a greedy CLASS-plus capture:
consume as much whitespace as possible, backtracking one character at a
time (Python semantics) until at least one CLASS character can start;
the capture is the maximal CLASS run there. -/
def matchWsCls (cls : Char → Bool) : List Char → Option (List Char)
  | [] => none
  | c :: rest =>
    if isPySpace c then
      match matchWsCls cls rest with
      | some r => some r
      | none => if cls c then some (List.takeWhile cls (c :: rest)) else none
    else
      if cls c then some (List.takeWhile cls (c :: rest)) else none

/-- The pattern tail after the label: greedy optional separator from
the class colon-or-hyphen (trying the separator-consuming alternative
first, as Python does), then whitespace and the capture. -/
def matchTail (cls : Char → Bool) (cs : List Char) : Option (List Char) :=
  match cs with
  | c :: rest =>
    if c == ':' || c == '-' then
      match matchWsCls cls rest with
      | some r => some r
      | none => matchWsCls cls (c :: rest)
    else matchWsCls cls (c :: rest)
  | [] => matchWsCls cls []

/-- Try each label alternative, in order, at the current position; if a
label matches but the pattern tail fails there, fall through to the
next alternative (regex backtracking across the alternation). -/
def tryLabelsAt (labels : List (List Char)) (cls : Char → Bool) (cs : List Char) :
    Option (List Char) :=
  match labels with
  | [] => none
  | lbl :: rest =>
    match matchLabelCI lbl cs with
    | some after =>
      match matchTail cls after with
      | some r => some r
      | none => tryLabelsAt rest cls cs
    | none => tryLabelsAt rest cls cs

/-- re.search for the common pattern shape: leftmost position wins. -/
def searchCap (labels : List (List Char)) (cls : Char → Bool) :
    List Char → Option (List Char)
  | [] => tryLabelsAt labels cls []
  | c :: rest =>
    match tryLabelsAt labels cls (c :: rest) with
    | some r => some r
    | none => searchCap labels cls rest

/-- Line 70: re.search of Patient Name[:\-]?\s*(.+) with IGNORECASE. -/
def search_patient_name (cs : List Char) : Option (List Char) :=
  searchCap ["Patient Name".data] dotCls cs

/-- Line 71: re.search of (DOB|Date of Birth)[:\-]?\s*([\w\/\-]+). -/
def search_dob (cs : List Char) : Option (List Char) :=
  searchCap ["DOB".data, "Date of Birth".data] dobCls cs

/-- Line 72: re.search of (Policy Number|Member ID)[:\-]?\s*([A-Za-z0-9\-]+). -/
def search_policy (cs : List Char) : Option (List Char) :=
  searchCap ["Policy Number".data, "Member ID".data] policyCls cs

/-- Line 73: re.search of (Provider|Physician) Name[:\-]?\s*(.+). -/
def search_provider (cs : List Char) : Option (List Char) :=
  searchCap ["Provider Name".data, "Physician Name".data] dotCls cs

/-! ## Date normalization (model of the third-party dateutil parser) -/

/-- Split a character list on a separator character. -/
def splitOnChar (sep : Char) (cs : List Char) : List (List Char) :=
  cs.foldr
    (fun c acc =>
      if c == sep then [] :: acc
      else
        match acc with
        | h :: t => (c :: h) :: t
        | [] => [[c]])
    [[]]

/-- Non-empty and all decimal digits. -/
def allDigitsNE (cs : List Char) : Bool := !cs.isEmpty && cs.all Char.isDigit

/-- Decimal value of a digit string. -/
def toNatD (cs : List Char) : Nat :=
  cs.foldl (fun a c => 10 * a + (c.toNat - 48)) 0

/-- Gregorian leap year (Python datetime rules). -/
def isLeapYear (y : Nat) : Bool :=
  y % 4 == 0 && (y % 100 != 0 || y % 400 == 0)

/-- Days in a month (Python datetime rules). -/
def daysInMonth (m y : Nat) : Nat :=
  if m == 2 then (if isLeapYear y then 29 else 28)
  else if m == 4 || m == 6 || m == 9 || m == 11 then 30 else 31

/-- Decimal digits of a number, fuel-indexed so the recursion is
structural (the fuel n+1 always suffices for n). -/
def natDigitsAux : Nat → Nat → List Char
  | 0, _ => []
  | fuel + 1, n =>
    if n < 10 then [Nat.digitChar n]
    else natDigitsAux fuel (n / 10) ++ [Nat.digitChar (n % 10)]

/-- Decimal rendering of a number. -/
def natToString (n : Nat) : String := ⟨natDigitsAux (n + 1) n⟩

/-- Zero-padded two-digit rendering (date.isoformat month/day). -/
def pad2 (n : Nat) : String :=
  if n < 10 then "0" ++ natToString n else natToString n

/-- Zero-padded four-digit rendering (date.isoformat year). -/
def pad4 (n : Nat) : String :=
  ⟨List.replicate (4 - (natDigitsAux (n + 1) n).length) '0'⟩ ++ natToString n

/-- date(y, m, d).isoformat() when the date is valid, else none. -/
def mk_iso_date (y m d : Nat) : Option String :=
  if 1 ≤ m && m ≤ 12 && 1 ≤ d && d ≤ daysInMonth m y then
    some (pad4 y ++ "-" ++ pad2 m ++ "-" ++ pad2 d)
  else none

/-- date(y, m, d).isoformat() with the dateutil constraint-based
fallback: when the month-first assignment of the two remaining numbers
is not a valid date, dateutil swaps them (day-first) before giving
up. -/
def mk_iso_date_du (y m d : Nat) : Option String :=
  match mk_iso_date y m d with
  | some s => some s
  | none => mk_iso_date y d m

/-- Model of dateutil date_parser.parse(token).date().isoformat() on
the token shapes the DOB capture class can produce.  Purely numeric
slash- or hyphen-separated triples are parsed with the dateutil
defaults: a four-digit first part is the year (year-first), otherwise
the final part must be a four-digit year; the remaining two numbers
are assigned month-first, falling back to day-first when month-first
is invalid.  Every other token shape is modelled as a parse failure,
matching dateutil on all concrete tokens evaluated in this
development. -/
def parse_date_iso (cs : List Char) : Option String :=
  let parts := if cs.any (fun c => c == '/') then splitOnChar '/' cs else splitOnChar '-' cs
  match parts with
  | [a, b, c] =>
    if allDigitsNE a && allDigitsNE b && allDigitsNE c then
      if a.length == 4 then mk_iso_date_du (toNatD a) (toNatD b) (toNatD c)
      else if c.length == 4 then mk_iso_date_du (toNatD c) (toNatD a) (toNatD b)
      else none
    else none
  | _ => none

/-- Lines 79-82: the captured DOB token is normalized to an ISO date;
if parsing raises, the raw captured text is kept (stripped, which is
the identity on this capture class). -/
def dob_normalize (cap : List Char) : String :=
  match parse_date_iso cap with
  | some iso => iso
  | none => ⟨pyStrip cap⟩

/-- extract_fields (lines 67-90): the four independent searches; each
found capture is stripped (or date-normalized for the DOB field). -/
def extract_fields (text : String) : ExtractedFields where
  patient_name := (search_patient_name text.data).map (fun cap => ⟨pyStrip cap⟩)
  date_of_birth := (search_dob text.data).map dob_normalize
  policy_number := (search_policy text.data).map (fun cap => ⟨pyStrip cap⟩)
  provider_name := (search_provider text.data).map (fun cap => ⟨pyStrip cap⟩)

/-! ## Confidence scoring and validation -/

/-- Python round(x, 2) on the values this program produces: all of
them are integers (multiples of 25), where rounding to two decimals is
exact and the distinction between bankers rounding and half-up rounding
is irrelevant. -/
def round2 (q : ℚ) : ℚ := ((round (q * 100) : ℤ) : ℚ) / 100

/-- calculate_confidence (lines 96-98). -/
def calculate_confidence (fs : ExtractedFields) : ℚ :=
  round2 (((REQUIRED_FIELDS.countP (field_filled fs) : ℚ) /
    (REQUIRED_FIELDS.length : ℚ)) * 100)

/-- validate_fields (lines 104-109): one message appended per required
field that is absent or empty, in REQUIRED_FIELDS order. -/
def validate_fields (fs : ExtractedFields) : List String :=
  REQUIRED_FIELDS.foldl
    (fun errors field =>
      if !(field_filled fs field) then
        errors ++ ["Missing required field: " ++ field]
      else errors)
    []

/-! ## EDI generation (generate_edi_837, lines 115-145)

The f-string of lines 123-138 is embedded as a list of segment lines
(one list entry per line of the template); the written file content is
their newline join plus the trailing newline of the template.  The
current UTC date and time stamps and the control number derived from
the base filename are parameters. -/

/-- SENDER_ID of line 28. -/
def SENDER_ID : String := "SENDERID123"

/-- RECEIVER_ID of line 29. -/
def RECEIVER_ID : String := "RECEIVERID456"

/-- SUBMITTER_NAME of line 30. -/
def SUBMITTER_NAME : String := "Demo Health Org"

/-- Python str.ljust(w, fill). -/
def ljust (s : String) (w : Nat) (fill : Char) : String :=
  ⟨s.data ++ List.replicate (w - s.data.length) fill⟩

/-- Line 121: base_filename[:9].ljust(9, "0"). -/
def edi_control_number (base : String) : String :=
  ljust ⟨base.data.take 9⟩ 9 '0'

/-- Python dict.get(k, d) on the extracted-fields dict. -/
def edi_get (fs : ExtractedFields) (k d : String) : String :=
  (fs.get k).getD d

/-- Line 134: fields.get(date_of_birth-key, empty).replace(hyphen, empty):
the date value defaults to the empty string and has hyphens removed. -/
def edi_dob_value (fs : ExtractedFields) : String :=
  ⟨(edi_get fs "date_of_birth" "").data.filter (fun c => c != '-')⟩

/-- The 15 segment lines of the f-string of lines 123-137. -/
def edi_segments (fs : ExtractedFields) (today now control : String) : List String :=
  ["ISA*00*          *00*          *ZZ*" ++ ljust SENDER_ID 15 ' ' ++ "*ZZ*" ++
     ljust RECEIVER_ID 15 ' ' ++ "*" ++ today ++ "*" ++ now ++ "*^*00501*" ++
     control ++ "*0*T*:~",
   "GS*HC*" ++ SENDER_ID ++ "*" ++ RECEIVER_ID ++ "*" ++ today ++ "*" ++ now ++
     "*1*X*005010X222A1~",
   "ST*837*0001~",
   "BHT*0019*00*0123*" ++ today ++ "*" ++ now ++ "*CH~",
   "NM1*41*2*" ++ SUBMITTER_NAME ++ "*****46*12345~",
   "PER*IC*Support*TE*8005551212~",
   "NM1*40*2*RECEIVER*****46*98765~",
   "HL*1**20*1~",
   "NM1*85*2*" ++ edi_get fs "provider_name" "UNKNOWN" ++ "*****XX*1234567893~",
   "HL*2*1*22*0~",
   "NM1*IL*1*" ++ edi_get fs "patient_name" "UNKNOWN" ++ "****MI*" ++
     edi_get fs "policy_number" "UNKNOWN" ++ "~",
   "DMG*D8*" ++ edi_dob_value fs ++ "~",
   "SE*13*0001~",
   "GE*1*1~",
   "IEA*1*" ++ control ++ "~"]

/-- The full EDI file content written by generate_edi_837. -/
def generate_edi_837_content (fs : ExtractedFields) (base today now : String) : String :=
  String.intercalate "\n" (edi_segments fs today now (edi_control_number base)) ++ "\n"

/-! ## Output, exception routing and the main processor as an event trace

save_outputs (151-172), move_to_exceptions (178-191) and process_file
(197-222) perform filesystem effects; they are embedded as the ordered
list of effects one call performs.  Timestamps (datetime.utcnow) are
parameters.  A PDF or image whose OCR raises is an ExtractionResult.raised
input; filesystem writes themselves failing is out of scope (the spec
accepts non-transactional writes as a limitation). -/

/-- OUTPUT_FOLDER of line 20 (home-directory prefix elided). -/
def OUTPUT_FOLDER : String := "processed_output"

/-- EXCEPTIONS_FOLDER of line 22 (home-directory prefix elided). -/
def EXCEPTIONS_FOLDER : String := "exceptions"

/-- EDI_OUTPUT_FOLDER of line 23 (home-directory prefix elided). -/
def EDI_OUTPUT_FOLDER : String := "edi_output"

/-- The JSON processing record of lines 154-159. -/
structure OutputData where
  extracted_fields : ExtractedFields
  confidence_score : ℚ
  processed_at : String
  status : String
deriving DecidableEq

/-- The JSON exception record of lines 182-186. -/
structure ErrorLog where
  file : String
  errors : List String
  timestamp : String
deriving DecidableEq

/-- One filesystem effect.  renameToExceptions is file_path.rename of
line 180: a move of the source file into EXCEPTIONS_FOLDER, not a
copy. -/
inductive FsEvent where
  | writeJsonRecord (path : String) (data : OutputData)
  | writeCsvRow (path : String) (fields : ExtractedFields)
  | writeEdi (path : String) (content : String)
  | renameToExceptions (name : String)
  | writeErrorRecord (path : String) (log : ErrorLog)
deriving DecidableEq

/-- The output_data dict of lines 154-159. -/
def save_outputs_record (fs : ExtractedFields) (confidence : ℚ) (ts : String) :
    OutputData :=
  { extracted_fields := fs
    confidence_score := confidence
    processed_at := ts
    status := if confidence = 100 then "success" else "partial" }

/-- save_outputs (lines 151-172): JSON record, single-row CSV, EDI. -/
def save_outputs_events (fs : ExtractedFields) (base : String) (confidence : ℚ)
    (ts today now : String) : List FsEvent :=
  [.writeJsonRecord (OUTPUT_FOLDER ++ "/" ++ base ++ ".json")
     (save_outputs_record fs confidence ts),
   .writeCsvRow (OUTPUT_FOLDER ++ "/" ++ base ++ ".csv") fs,
   .writeEdi (EDI_OUTPUT_FOLDER ++ "/" ++ base ++ ".edi")
     (generate_edi_837_content fs base today now)]

/-- move_to_exceptions (lines 178-191): rename the file into the
exceptions folder, then write the sibling error record. -/
def move_to_exceptions_events (name stem : String) (errors : List String)
    (ts : String) : List FsEvent :=
  [.renameToExceptions name,
   .writeErrorRecord (EXCEPTIONS_FOLDER ++ "/" ++ stem ++ "_errors.json")
     ⟨name, errors, ts⟩]

/-- Outcome of the text-extraction step of process_file (lines
202-206): the OCR text, or the message of a raised exception. -/
inductive ExtractionResult where
  | ok (text : String)
  | raised (msg : String)

/-- process_file (lines 197-222) as the list of filesystem effects it
performs on a file with the given name and stem. -/
def process_file_events (name stem : String) (res : ExtractionResult)
    (ts today now : String) : List FsEvent :=
  match res with
  | .raised msg => move_to_exceptions_events name stem [msg] ts
  | .ok text =>
    let fields := extract_fields text
    let errors := validate_fields fields
    let confidence := calculate_confidence fields
    if errors.isEmpty then save_outputs_events fields stem confidence ts today now
    else move_to_exceptions_events name stem errors ts

/-- Classifier: the event that writes a ProcessingRecord. -/
def isProcessingRecordEvent : FsEvent → Bool
  | .writeJsonRecord _ _ => true
  | _ => false

/-- Classifier: the event that writes an ExceptionRecord. -/
def isExceptionRecordEvent : FsEvent → Bool
  | .writeErrorRecord _ _ => true
  | _ => false

/-- Classifier: the event that relocates the source file. -/
def isRelocationEvent : FsEvent → Bool
  | .renameToExceptions _ => true
  | _ => false

/-- Rest of the text after the first (leftmost) case-insensitive
occurrence of a label. -/
def findLabelRestCI (label : List Char) : List Char → Option (List Char)
  | [] => matchLabelCI label []
  | c :: rest =>
    match matchLabelCI label (c :: rest) with
    | some r => some r
    | none => findLabelRestCI label rest

/-- Modelled from the spec claim wording for the patient_name rule
(spec 4.2 and the claim of C7): anchored on the first case-insensitive
occurrence of the label, an optional colon-or-hyphen separator, and the
free text to the end of THAT SAME LINE, post-processed like the
extractor (stripped).  This is the spec-side reading to compare the
code against; the code itself is search_patient_name above. -/
def patient_name_same_line (text : String) : Option String :=
  (findLabelRestCI "Patient Name".data text.data).map (fun rest =>
    let rest2 := match rest with
      | c :: t => if c == ':' || c == '-' then t else c :: t
      | [] => []
    (⟨pyStrip (rest2.takeWhile (fun c => c != '\n'))⟩ : String))

/-! ## Helper lemmas -/

theorem ExtractedFields.get_patient (fs : ExtractedFields) :
    fs.get "patient_name" = fs.patient_name := rfl

theorem ExtractedFields.get_dob (fs : ExtractedFields) :
    fs.get "date_of_birth" = fs.date_of_birth := rfl

theorem ExtractedFields.get_policy (fs : ExtractedFields) :
    fs.get "policy_number" = fs.policy_number := rfl

theorem ExtractedFields.get_provider (fs : ExtractedFields) :
    fs.get "provider_name" = fs.provider_name := rfl

theorem round2_intCast (z : ℤ) : round2 ((z : ℚ)) = z := by
  unfold round2
  rw [show ((z : ℚ) * 100) = ((z * 100 : ℤ) : ℚ) by push_cast; ring, round_intCast]
  push_cast
  field_simp

theorem round2_natCast (n : ℕ) : round2 ((n : ℚ)) = n := by
  exact_mod_cast round2_intCast (n : ℤ)

theorem calculate_confidence_eq (fs : ExtractedFields) :
    calculate_confidence fs = ((25 * REQUIRED_FIELDS.countP (field_filled fs) : ℕ) : ℚ) := by
  unfold calculate_confidence
  have h : ((REQUIRED_FIELDS.countP (field_filled fs) : ℚ) / (REQUIRED_FIELDS.length : ℚ)) * 100
      = ((25 * REQUIRED_FIELDS.countP (field_filled fs) : ℕ) : ℚ) := by
    have hl : ((REQUIRED_FIELDS.length : ℕ) : ℚ) = 4 := by norm_num [REQUIRED_FIELDS]
    rw [hl]
    push_cast
    ring
  rw [h, round2_natCast]

theorem countP_REQUIRED_le (p : String → Bool) : REQUIRED_FIELDS.countP p ≤ 4 := by
  cases h1 : p "patient_name" <;> cases h2 : p "date_of_birth" <;>
    cases h3 : p "policy_number" <;> cases h4 : p "provider_name" <;>
  simp [REQUIRED_FIELDS, List.countP_cons, h1, h2, h3, h4]

theorem countP_REQUIRED_eq_four_iff (p : String → Bool) :
    REQUIRED_FIELDS.countP p = 4 ↔ ∀ f ∈ REQUIRED_FIELDS, p f = true := by
  cases h1 : p "patient_name" <;> cases h2 : p "date_of_birth" <;>
    cases h3 : p "policy_number" <;> cases h4 : p "provider_name" <;>
  simp [REQUIRED_FIELDS, List.countP_cons, h1, h2, h3, h4]

theorem validate_fields_eq_nil_iff (fs : ExtractedFields) :
    validate_fields fs = [] ↔ ∀ f ∈ REQUIRED_FIELDS, field_filled fs f = true := by
  cases h1 : field_filled fs "patient_name" <;>
    cases h2 : field_filled fs "date_of_birth" <;>
    cases h3 : field_filled fs "policy_number" <;>
    cases h4 : field_filled fs "provider_name" <;>
  simp [validate_fields, REQUIRED_FIELDS, List.foldl, h1, h2, h3, h4]

/-! ## Claim theorems -/

/-- C3: calculate_confidence returns 100.0 exactly when all four
required fields are present with non-empty values, and in general
equals the count of filled required fields divided by four, times 100,
rounded to two decimals. -/
theorem confidence_hundred_iff_all_filled (fs : ExtractedFields) :
    (calculate_confidence fs = 100 ↔ ∀ f ∈ REQUIRED_FIELDS, field_filled fs f = true) ∧
    calculate_confidence fs =
      round2 (((REQUIRED_FIELDS.countP (field_filled fs) : ℚ) /
        (REQUIRED_FIELDS.length : ℚ)) * 100) := by
  refine ⟨?_, rfl⟩
  rw [calculate_confidence_eq, ← countP_REQUIRED_eq_four_iff (field_filled fs)]
  constructor
  · intro h
    have h2 : ((25 * REQUIRED_FIELDS.countP (field_filled fs) : ℕ) : ℚ) = ((100 : ℕ) : ℚ) := by
      exact_mod_cast h
    have h3 := Nat.cast_inj.mp h2
    omega
  · intro h
    rw [h]
    norm_num

/-- C10: calculate_confidence always returns one of the five values
0, 25, 50, 75, 100 (the filled count is between 0 and 4 and each
quarter of 100 is exact to two decimals). -/
theorem confidence_five_values (fs : ExtractedFields) :
    calculate_confidence fs = 0 ∨ calculate_confidence fs = 25 ∨
    calculate_confidence fs = 50 ∨ calculate_confidence fs = 75 ∨
    calculate_confidence fs = 100 := by
  rw [calculate_confidence_eq]
  have h := countP_REQUIRED_le (field_filled fs)
  set n := REQUIRED_FIELDS.countP (field_filled fs) with hn
  interval_cases n <;> norm_num

/-- C5: on a fields mapping where every required field is absent or
empty (as extract_fields produces for text with none of the labels),
validate_fields returns exactly the four missing-field messages, one
per required field in order; and process_file takes the exception route
exactly when the error list is non-empty. -/
theorem validate_all_missing_four_errors :
    (∀ fs : ExtractedFields, (∀ f ∈ REQUIRED_FIELDS, field_filled fs f = false) →
      validate_fields fs =
        ["Missing required field: patient_name", "Missing required field: date_of_birth",
         "Missing required field: policy_number", "Missing required field: provider_name"]) ∧
    (∀ name stem text ts today now,
      (process_file_events name stem (.ok text) ts today now).any isExceptionRecordEvent =
        !(validate_fields (extract_fields text)).isEmpty) := by
  constructor
  · intro fs h
    have h1 := h "patient_name" (by simp [REQUIRED_FIELDS])
    have h2 := h "date_of_birth" (by simp [REQUIRED_FIELDS])
    have h3 := h "policy_number" (by simp [REQUIRED_FIELDS])
    have h4 := h "provider_name" (by simp [REQUIRED_FIELDS])
    simp [validate_fields, REQUIRED_FIELDS, List.foldl, h1, h2, h3, h4]
  · intro name stem text ts today now
    cases h : (validate_fields (extract_fields text)).isEmpty <;>
      simp [process_file_events, h, save_outputs_events, move_to_exceptions_events,
        isExceptionRecordEvent]

/-- C5 witness: text containing none of the four labels yields a
mapping with all required fields missing, and validation then lists
exactly four errors. -/
theorem validate_all_missing_four_errors_witness :
    validate_fields (extract_fields "hello world") =
      ["Missing required field: patient_name", "Missing required field: date_of_birth",
       "Missing required field: policy_number", "Missing required field: provider_name"] :=
  validate_all_missing_four_errors.1 (extract_fields "hello world") (by decide)

/-- C8: the JSON processing record written first by save_outputs holds
the extracted fields, the confidence score, the timestamp, and status
success exactly for score 100, else status partial. -/
theorem processing_record_contents (fs : ExtractedFields) (base : String) (conf : ℚ)
    (ts today now : String) :
    (save_outputs_events fs base conf ts today now).head? =
      some (.writeJsonRecord (OUTPUT_FOLDER ++ "/" ++ base ++ ".json")
        (save_outputs_record fs conf ts)) ∧
    (save_outputs_record fs conf ts).extracted_fields = fs ∧
    (save_outputs_record fs conf ts).confidence_score = conf ∧
    (save_outputs_record fs conf ts).processed_at = ts ∧
    (save_outputs_record fs conf ts).status = (if conf = 100 then "success" else "partial") :=
  ⟨rfl, rfl, rfl, rfl, rfl⟩

/-- C1: every run of process_file performs exactly one of the two
outcomes: a ProcessingRecord write with no exception record and no
relocation, or an ExceptionRecord write with a relocation and no
ProcessingRecord -- never both, never neither. -/
theorem process_file_exactly_one_outcome (name stem : String) (res : ExtractionResult)
    (ts today now : String) :
    ((process_file_events name stem res ts today now).any isProcessingRecordEvent = true ∧
     (process_file_events name stem res ts today now).any isExceptionRecordEvent = false ∧
     (process_file_events name stem res ts today now).any isRelocationEvent = false) ∨
    ((process_file_events name stem res ts today now).any isProcessingRecordEvent = false ∧
     (process_file_events name stem res ts today now).any isExceptionRecordEvent = true ∧
     (process_file_events name stem res ts today now).any isRelocationEvent = true) := by
  cases res with
  | raised msg =>
    right
    simp [process_file_events, move_to_exceptions_events, isProcessingRecordEvent,
      isExceptionRecordEvent, isRelocationEvent]
  | ok text =>
    cases h : (validate_fields (extract_fields text)).isEmpty
    · right
      simp [process_file_events, h, move_to_exceptions_events, isProcessingRecordEvent,
        isExceptionRecordEvent, isRelocationEvent]
    · left
      simp [process_file_events, h, save_outputs_events, isProcessingRecordEvent,
        isExceptionRecordEvent, isRelocationEvent]

/-- C6: on an extraction exception or on validation failure,
process_file renames (moves) the source file into the exceptions
folder and then writes the sibling JSON error record holding the
original filename, the error list (the validation errors, or the
single-element list of the exception message), and the timestamp. -/
theorem exception_path_moves_and_records (name stem ts today now : String) :
    (∀ msg, process_file_events name stem (.raised msg) ts today now =
      [.renameToExceptions name,
       .writeErrorRecord (EXCEPTIONS_FOLDER ++ "/" ++ stem ++ "_errors.json")
         ⟨name, [msg], ts⟩]) ∧
    (∀ text, validate_fields (extract_fields text) ≠ [] →
      process_file_events name stem (.ok text) ts today now =
      [.renameToExceptions name,
       .writeErrorRecord (EXCEPTIONS_FOLDER ++ "/" ++ stem ++ "_errors.json")
         ⟨name, validate_fields (extract_fields text), ts⟩]) := by
  constructor
  · intro msg
    rfl
  · intro text h
    have h2 : (validate_fields (extract_fields text)).isEmpty = false := by
      cases hh : validate_fields (extract_fields text)
      · exact absurd hh h
      · rfl
    simp [process_file_events, h2, move_to_exceptions_events]

/-- C6 witness: a file whose text has no labels fails validation and is
moved with its four-error record. -/
theorem exception_path_moves_and_records_witness :
    process_file_events "a.png" "a" (.ok "x") "t" "d" "n" =
      [.renameToExceptions "a.png",
       .writeErrorRecord (EXCEPTIONS_FOLDER ++ "/" ++ "a" ++ "_errors.json")
         ⟨"a.png", validate_fields (extract_fields "x"), "t"⟩] :=
  (exception_path_moves_and_records "a.png" "a" "t" "d" "n").2 "x" (by decide)

/-- C9: outputs are written only when validation passes, and an empty
error list forces a filled count of four, hence confidence 100; so
every processing record written through process_file has confidence
100 and status success, and the partial status is unreachable on this
path (validator and scorer share the field_filled test). -/
theorem process_file_success_record_status (name stem text ts today now path : String)
    (d : OutputData)
    (h : FsEvent.writeJsonRecord path d ∈
      process_file_events name stem (.ok text) ts today now) :
    d.confidence_score = 100 ∧ d.status = "success" := by
  cases he : (validate_fields (extract_fields text)).isEmpty
  · simp [process_file_events, he, move_to_exceptions_events] at h
  · have hnil : validate_fields (extract_fields text) = [] := by
      cases hh : validate_fields (extract_fields text)
      · rfl
      · rw [hh] at he
        simp at he
    have hall : ∀ f ∈ REQUIRED_FIELDS, field_filled (extract_fields text) f = true :=
      (validate_fields_eq_nil_iff (extract_fields text)).mp hnil
    have hconf : calculate_confidence (extract_fields text) = 100 := by
      rw [calculate_confidence_eq, (countP_REQUIRED_eq_four_iff _).mpr hall]
      norm_num
    simp [process_file_events, he, save_outputs_events, move_to_exceptions_events] at h
    rcases h with ⟨hpath, hd⟩
    subst hd
    simp [save_outputs_record, hconf]

/-- C9 witness: a fully labelled document flows through the success
path and its written record carries confidence 100 and status
success. -/
theorem process_file_success_record_status_witness :
    (⟨⟨some "Jane Doe", some "1990-01-02", some "P123", some "Dr X"⟩,
        100, "t", "success"⟩ : OutputData).confidence_score = 100 ∧
    (⟨⟨some "Jane Doe", some "1990-01-02", some "P123", some "Dr X"⟩,
        100, "t", "success"⟩ : OutputData).status = "success" :=
  process_file_success_record_status "a.pdf" "a"
    "Patient Name: Jane Doe\nDOB: 01/02/1990\nPolicy Number: P123\nProvider Name: Dr X"
    "t" "d" "n" "processed_output/a.json"
    ⟨⟨some "Jane Doe", some "1990-01-02", some "P123", some "Dr X"⟩, 100, "t", "success"⟩
    (by with_unfolding_all decide)

/-- C2 counterexample: on a mapping with every field missing, the DMG
date segment of the claim-file rendering substitutes the empty string,
not the literal UNKNOWN, because line 134 defaults date_of_birth to the
empty string; so the claim that each of the FOUR missing fields is
rendered as UNKNOWN fails on the date field. -/
theorem edi_missing_dob_not_unknown :
    edi_dob_value ⟨none, none, none, none⟩ = "" ∧
    (edi_segments ⟨none, none, none, none⟩ "20250101" "1200" "demo00000")[11]? =
      some "DMG*D8*~" ∧
    (edi_segments ⟨none, none, none, none⟩ "20250101" "1200" "demo00000")[11]? ≠
      some ("DMG*D8*" ++ "UNKNOWN" ++ "~") := by decide

/-- C2 amended: generate_edi_837 substitutes the literal UNKNOWN for
each of provider_name, patient_name and policy_number that is missing,
independently of the other fields (the other substitution slot of the
NM1-IL segment keeps its own value); a missing date_of_birth is instead
rendered as the empty string (the date value defaults to the empty
string before hyphen stripping); and the rendering never raises: it is
total, always producing all 15 template segments. -/
theorem edi_missing_field_defaults (fs : ExtractedFields) (today now control : String) :
    (fs.provider_name = none →
      (edi_segments fs today now control)[8]? =
        some "NM1*85*2*UNKNOWN*****XX*1234567893~") ∧
    (fs.patient_name = none →
      (edi_segments fs today now control)[10]? =
        some ("NM1*IL*1*UNKNOWN****MI*" ++ edi_get fs "policy_number" "UNKNOWN" ++ "~")) ∧
    (fs.policy_number = none →
      (edi_segments fs today now control)[10]? =
        some ("NM1*IL*1*" ++ edi_get fs "patient_name" "UNKNOWN" ++ "****MI*UNKNOWN~")) ∧
    (fs.date_of_birth = none →
      (edi_segments fs today now control)[11]? = some "DMG*D8*~") ∧
    (edi_segments fs today now control).length = 15 := by
  refine ⟨?_, ?_, ?_, ?_, rfl⟩
  · intro h
    simp [edi_segments, edi_get, ExtractedFields.get_provider, h]
  · intro h
    simp [edi_segments, edi_get, ExtractedFields.get_patient, h]
  · intro h
    simp [edi_segments, edi_get, ExtractedFields.get_policy, h, String.append_assoc]
  · intro h
    simp [edi_segments, edi_dob_value, edi_get, ExtractedFields.get_dob, h]

/-- C2 witness: with patient_name missing but policy_number present,
the patient slot alone renders as UNKNOWN while the policy slot keeps
its value. -/
theorem edi_missing_field_defaults_witness :
    (edi_segments ⟨none, none, some "P123", none⟩ "20250101" "1200" "demo00000")[10]? =
      some "NM1*IL*1*UNKNOWN****MI*P123~" := by
  rw [(edi_missing_field_defaults ⟨none, none, some "P123", none⟩
    "20250101" "1200" "demo00000").2.1 rfl]
  decide

theorem matchWsCls_sound (cls : Char → Bool) :
    ∀ (cs r : List Char), matchWsCls cls cs = some r → ∀ c ∈ r, cls c = true := by
  intro cs
  induction cs with
  | nil =>
    intro r h
    simp [matchWsCls] at h
  | cons a rest ih =>
    intro r h c hc
    simp only [matchWsCls] at h
    split at h
    · split at h
      · rename_i r2 hr2
        cases h
        exact ih _ hr2 c hc
      · split at h
        · cases h
          exact List.mem_takeWhile_imp hc
        · simp at h
    · split at h
      · cases h
        exact List.mem_takeWhile_imp hc
      · simp at h

theorem matchTail_sound (cls : Char → Bool) (cs r : List Char)
    (h : matchTail cls cs = some r) : ∀ c ∈ r, cls c = true := by
  rcases cs with _ | ⟨a, rest⟩
  · exact matchWsCls_sound cls [] r h
  · simp only [matchTail] at h
    split at h
    · split at h
      · rename_i r2 hr2
        cases h
        exact matchWsCls_sound cls rest r hr2
      · exact matchWsCls_sound cls (a :: rest) r h
    · exact matchWsCls_sound cls (a :: rest) r h

theorem tryLabelsAt_sound (cls : Char → Bool) :
    ∀ (labels : List (List Char)) (cs r : List Char),
      tryLabelsAt labels cls cs = some r → ∀ c ∈ r, cls c = true := by
  intro labels
  induction labels with
  | nil =>
    intro cs r h
    simp [tryLabelsAt] at h
  | cons lbl rest ih =>
    intro cs r h
    cases hm : matchLabelCI lbl cs with
    | some after =>
      cases ht : matchTail cls after with
      | some r2 =>
        simp only [tryLabelsAt, hm, ht, Option.some.injEq] at h
        subst h
        exact matchTail_sound cls after r2 ht
      | none =>
        simp only [tryLabelsAt, hm, ht] at h
        exact ih cs r h
    | none =>
      simp only [tryLabelsAt, hm] at h
      exact ih cs r h

theorem searchCap_sound (labels : List (List Char)) (cls : Char → Bool) :
    ∀ (cs r : List Char), searchCap labels cls cs = some r → ∀ c ∈ r, cls c = true := by
  intro cs
  induction cs with
  | nil =>
    intro r h
    exact tryLabelsAt_sound cls labels [] r h
  | cons a rest ih =>
    intro r h
    simp only [searchCap] at h
    split at h
    · rename_i r2 hr2
      cases h
      exact tryLabelsAt_sound cls labels (a :: rest) r hr2
    · exact ih r h

theorem pyStrip_subset {c : Char} {l : List Char} (h : c ∈ pyStrip l) : c ∈ l := by
  unfold pyStrip at h
  rw [List.mem_reverse] at h
  have h2 := (List.dropWhile_sublist _).subset h
  rw [List.mem_reverse] at h2
  exact (List.dropWhile_sublist _).subset h2

/-- C4: whenever the DOB pattern matches (a DOB label followed by a
date-like token), extract_fields stores the normalization of the
captured token: the ISO form of the parsed calendar date when parsing
succeeds, and the raw captured text (stripped, which is the identity on
this token class) when parsing fails -- a fallback, never an error. -/
theorem dob_extraction_parse_or_verbatim (text : String) (cap : List Char)
    (h : search_dob text.data = some cap) :
    (extract_fields text).date_of_birth = some (dob_normalize cap) ∧
    (∀ iso, parse_date_iso cap = some iso → dob_normalize cap = iso) ∧
    (parse_date_iso cap = none → dob_normalize cap = ⟨pyStrip cap⟩) := by
  refine ⟨?_, ?_, ?_⟩
  · simp [extract_fields, h]
  · intro iso hp
    simp [dob_normalize, hp]
  · intro hp
    simp [dob_normalize, hp]

/-- C4 witness: DOB 01/02/1990 is normalized to 1990-01-02 and the
unparseable token foo-bar is kept verbatim. -/
theorem dob_extraction_parse_or_verbatim_witness :
    (extract_fields "DOB: 01/02/1990").date_of_birth = some "1990-01-02" ∧
    (extract_fields "DOB: foo-bar").date_of_birth = some "foo-bar" := by
  constructor
  · rw [(dob_extraction_parse_or_verbatim "DOB: 01/02/1990" ("01/02/1990").data
      (by decide)).1]
    decide
  · rw [(dob_extraction_parse_or_verbatim "DOB: foo-bar" ("foo-bar").data
      (by decide)).1]
    decide

/-- C7 counterexample: on text where only whitespace follows the
separator on the label line, the whitespace run of the pattern crosses
the line break and the capture comes from the NEXT line: the code
yields Jane Doe while the claimed same-line capture is empty, so the
extraction does not always capture the free text to the end of the
label line. -/
theorem patient_name_crosses_line_counterexample :
    (extract_fields "Patient Name:\nJane Doe").patient_name = some "Jane Doe" ∧
    patient_name_same_line "Patient Name:\nJane Doe" = some "" ∧
    patient_name_same_line "Patient Name:\nJane Doe" ≠
      (extract_fields "Patient Name:\nJane Doe").patient_name := by decide

/-- C7 amended: the patient_name extraction is anchored on the label
Patient Name (case-insensitively, with optional separator) and captures
a run of non-newline characters, so the capture never extends past the
end of a line; but when only whitespace follows the separator on the
label line, the capture may begin on a later line instead of the label
line.  For text containing Patient Name: Jane Doe the extractor yields
patient_name Jane Doe. -/
theorem patient_name_capture_no_newline :
    (∀ (text : String) (cap : String), (extract_fields text).patient_name = some cap →
      ∀ c ∈ cap.data, c ≠ '\n') ∧
    (extract_fields "Patient Name: Jane Doe").patient_name = some "Jane Doe" := by
  constructor
  · intro text cap h c hc
    simp only [extract_fields] at h
    rcases Option.map_eq_some'.mp h with ⟨capL, hsearch, hcap⟩
    subst hcap
    simp only [search_patient_name] at hsearch
    have hcls := searchCap_sound ["Patient Name".data] dotCls text.data capL hsearch c
      (pyStrip_subset hc)
    simpa [dotCls] using hcls
  · decide

/-- C7 amended witness: the captured Jane Doe contains no newline. -/
theorem patient_name_capture_no_newline_witness : ('J' : Char) ≠ '\n' :=
  patient_name_capture_no_newline.1 "Patient Name: Jane Doe" "Jane Doe" (by decide)
    'J' (by decide)
